import Mathlib

/-!
Verification of the MailWatch rule-matching and notification-dispatch engine.

The definitions below are a shallow embedding of the TypeScript sources:
  - `src/lib/ruleEngine.ts`   (matchesRule, applyRuleActions, processEmails)
  - `src/lib/ruleService.ts`  (fetchRules)
  - `src/lib/emailMonitor.ts` (saveProcessedIds, markAsProcessed,
                               getUnprocessedEmails, checkAndProcess)
  - `src/types.ts`            (Rule, RuleCondition, RuleStatus, records)

Side-effecting calls (Gmail mutations, outbound sends, Supabase reads and
inserts) are modelled by an explicit environment `Env` fixing the outcome of
each external call, and by an `Effect` trace listing the externally visible
calls the code performs, in program order.  JavaScript string truthiness is
modelled by comparison with the empty string; `undefined` option fields are
modelled with `Option` or with the empty string / empty list.
-/

namespace MailWatch

/-- JS `String.prototype.includes`: `needle` occurs contiguously in `hay`. -/
def strIncludes (hay needle : String) : Bool :=
  decide (needle.data <:+: hay.data)

/-- JS `x || dflt` for strings: empty strings are falsy. -/
def jsOrStr (s dflt : String) : String :=
  if s = "" then dflt else s

/-- JS `a || b` where `a`, `b` are string-or-undefined: an absent or empty
first operand yields the second. -/
def jsOrOpt (a b : Option String) : Option String :=
  match a with
  | some s => if s = "" then b else some s
  | none => b

/- Enum `RuleCondition` from `src/types.ts`; the enum values are the
user-facing display strings. -/
namespace RuleCondition

def CONTAINS : String := "Contém"

def STARTS_WITH : String := "Começa com"

def EXACT : String := "É exatamente"

def ENDS_WITH : String := "Termina com"

def HAS_ATTACHMENT : String := "Tem Anexo"

def ALWAYS : String := "Sempre"

end RuleCondition

/- Enum `RuleStatus` from `src/types.ts`. -/
namespace RuleStatus

def ACTIVE : String := "Ativo"

def PAUSED : String := "Pausado"

end RuleStatus

/-- The fields of `GmailMessage` read by the rule engine
(`src/lib/gmailService.ts`).  `from` is a Lean keyword, hence `fromAddr`. -/
structure GmailMessage where
  id : String
  subject : String
  fromAddr : String
  snippet : String
deriving DecidableEq

/-- The optional inbox-mutation flags `rule.actions` of the engine's `Rule`. -/
structure RuleActions where
  markAsRead : Bool := false
  archive : Bool := false
  applyLabel : Option String := none
deriving DecidableEq

/-- The `Rule` record as read by `src/lib/ruleEngine.ts`: `subjectFilter`,
`condition`, `senderFilter`, `keywords`, `notificationEmail`,
`whatsappNumber`, `actions`, `status`, `id`, `name`.  Absent optional string
fields are the empty string (JS falsy), an absent keyword list is `[]`. -/
structure Rule where
  id : String
  name : String
  subjectFilter : String
  condition : String
  senderFilter : String := ""
  keywords : List String := []
  notificationEmail : String := ""
  whatsappNumber : String := ""
  actions : Option RuleActions := none
  status : String := RuleStatus.ACTIVE
deriving DecidableEq

/-! ## Matcher: `ruleEngine.matchesRule` -/

/-- The `switch (rule.condition)` of `matchesRule` (ruleEngine.ts:30-47),
deciding the subject test on the lower-cased subject and filter.  The
`CONTAINS` case and the `default` case of the switch share one body, so any
condition other than EXACT / STARTS_WITH / ENDS_WITH / ALWAYS is a substring
test. -/
def subjectMatchB (email : GmailMessage) (rule : Rule) : Bool :=
  let subjectLC := email.subject.toLower
  let filterLC := rule.subjectFilter.toLower
  if rule.condition = RuleCondition.EXACT then subjectLC == filterLC
  else if rule.condition = RuleCondition.STARTS_WITH then subjectLC.startsWith filterLC
  else if rule.condition = RuleCondition.ENDS_WITH then subjectLC.endsWith filterLC
  else if rule.condition = RuleCondition.ALWAYS then true
  else strIncludes subjectLC filterLC

/-- The sender test of `matchesRule` (ruleEngine.ts:55-60): case-insensitive
substring match of `senderFilter` against `email.from`. -/
def senderMatchB (email : GmailMessage) (rule : Rule) : Bool :=
  strIncludes email.fromAddr.toLower rule.senderFilter.toLower

/-- The keyword filter of `matchesRule` (ruleEngine.ts:63-67): keywords that
occur, case-insensitively, in the subject or the snippet. -/
def matchedKeywords (email : GmailMessage) (rule : Rule) : List String :=
  rule.keywords.filter fun kw =>
    strIncludes email.subject.toLower kw.toLower ||
    strIncludes email.snippet.toLower kw.toLower

/-- Criterion string pushed for a successful subject test
(ruleEngine.ts:50). -/
def subjectCriterion (rule : Rule) : String :=
  "Filtro \"" ++ (rule.condition ++ ("\": \"" ++ (rule.subjectFilter ++ "\"")))

/-- Criterion string pushed for a successful sender test
(ruleEngine.ts:58). -/
def senderCriterion (rule : Rule) : String :=
  "Remetente contém \"" ++ (rule.senderFilter ++ "\"")

/-- Criterion string pushed for a successful keyword test
(ruleEngine.ts:69). -/
def keywordsCriterion (matched : List String) : String :=
  "Palavras-chave: " ++ String.intercalate (", ") matched

/-- Result record of `matchesRule`. -/
structure MatchResult where
  isMatch : Bool
  criteria : List String
deriving DecidableEq

/-- `ruleEngine.matchesRule` (ruleEngine.ts:19-76).  Each of the three filter
categories contributes a criterion string when it is configured (JS-truthy)
and succeeds; the rule matches when at least one criterion was pushed. -/
def matchesRule (email : GmailMessage) (rule : Rule) : MatchResult :=
  let criteriaSubject : List String :=
    if rule.subjectFilter ≠ "" then
      if subjectMatchB email rule then [subjectCriterion rule] else []
    else []
  let criteriaSender : List String :=
    if rule.senderFilter ≠ "" then
      if senderMatchB email rule then [senderCriterion rule] else []
    else []
  let criteriaKeywords : List String :=
    if rule.keywords.length > 0 then
      if (matchedKeywords email rule).length > 0 then
        [keywordsCriterion (matchedKeywords email rule)]
      else []
    else []
  let criteria := criteriaSubject ++ (criteriaSender ++ criteriaKeywords)
  { isMatch := criteria.length > 0, criteria := criteria }

/-! ## Side-effect model for `ruleEngine.applyRuleActions` -/

/-- Row written by `notificationService.addNotification`
(`src/lib/notificationService.ts:33-58`). -/
structure NotificationRecord where
  status : String
  ruleName : String
  recipient : String
  error : Option String
deriving DecidableEq

/-- Row written by `logService.addLog`. -/
structure LogEntry where
  type : String
  title : String
  description : String
  status : String
deriving DecidableEq

/-- One externally visible call performed by `applyRuleActions`, in program
order: Gmail inbox mutations, outbound sends, history inserts, and the
dedup-marker insert into `processed_emails`. -/
inductive Effect where
  | markAsRead (messageId : String)
  | archiveEmail (messageId : String)
  | applyLabel (messageId : String) (labelId : String)
  | sendEmail (recipient : String)
  | sendWhatsApp (instanceName : String) (recipient : String)
  | addNotification (record : NotificationRecord)
  | addLog (entry : LogEntry)
  | insertProcessedMarker (userId : String) (messageId : String) (ruleId : String)
deriving DecidableEq

/-- `true` exactly on `addNotification` effects. -/
def Effect.isAddNotificationB : Effect → Bool
  | .addNotification _ => true
  | _ => false

/-- `true` exactly on `addLog` effects. -/
def Effect.isAddLogB : Effect → Bool
  | .addLog _ => true
  | _ => false

/-- `true` exactly on `insertProcessedMarker` effects. -/
def Effect.isMarkerB : Effect → Bool
  | .insertProcessedMarker _ _ _ => true
  | _ => false

/-- `true` exactly on outbound sends (email or WhatsApp). -/
def Effect.isSendB : Effect → Bool
  | .sendEmail _ => true
  | .sendWhatsApp _ _ => true
  | _ => false

/-- `true` exactly on Gmail inbox mutations. -/
def Effect.isInboxActionB : Effect → Bool
  | .markAsRead _ => true
  | .archiveEmail _ => true
  | .applyLabel _ _ => true
  | _ => false

/-- Result of `gmailService.sendEmail` when it resolves
(ruleEngine.ts:130-150). -/
structure SendEmailResult where
  success : Bool
  error : Option String
deriving DecidableEq

/-- Outcomes of the external calls made during one `applyRuleActions`
invocation.  `processed_emails` is the dedup store contents as
(message_id, rule_id) pairs; `currentUserId` is `supabase.auth.getUser()`;
the `Throws` fields say whether the corresponding awaited call rejects;
`sendEmailOutcome` is either a rejection (with its error message) or a
resolved `SendEmailResult`; `instanceName` is the `whatsapp_instances`
lookup; `sendWhatsAppThrows = some msg` means the WhatsApp send rejects
with message `msg`. -/
structure Env where
  processed_emails : List (String × String)
  currentUserId : Option String
  markAsReadThrows : Bool := false
  archiveThrows : Bool := false
  applyLabelThrows : Bool := false
  sendEmailOutcome : Except String SendEmailResult := .ok { success := true, error := none }
  instanceName : Option String := none
  sendWhatsAppThrows : Option String := none

/-- The dedup lookup at ruleEngine.ts:86-92: a `processed_emails` row with
this `message_id` and `rule_id` exists. -/
def dedupHit (env : Env) (email : GmailMessage) (rule : Rule) : Bool :=
  env.processed_emails.any fun p => p.1 == email.id && p.2 == rule.id

/-- Effects plus action-description strings accumulated by one inbox-action
block of `applyRuleActions`. -/
structure ActionStageResult where
  effects : List Effect
  actions : List String
deriving DecidableEq

/-- Sequencing of two inbox-action blocks: a rejection (carrying the effects
already performed) propagates to the enclosing `try`, otherwise effects and
action strings accumulate in order. -/
def andThenStep (first next : Except (List Effect) ActionStageResult) :
    Except (List Effect) ActionStageResult :=
  match first with
  | .error effs => .error effs
  | .ok r =>
    match next with
    | .error effs2 => .error (r.effects ++ effs2)
    | .ok r2 => .ok { effects := r.effects ++ r2.effects, actions := r.actions ++ r2.actions }

/-- ruleEngine.ts:110-113: `if (rule.actions?.markAsRead)` call
`gmailService.markAsRead` and push `'Marcado como lido'`. -/
def markAsReadStep (env : Env) (email : GmailMessage) (rule : Rule) :
    Except (List Effect) ActionStageResult :=
  if (rule.actions.map fun a => a.markAsRead).getD false then
    if env.markAsReadThrows then .error [Effect.markAsRead email.id]
    else .ok { effects := [Effect.markAsRead email.id], actions := ["Marcado como lido"] }
  else .ok { effects := [], actions := [] }

/-- ruleEngine.ts:116-119: `if (rule.actions?.archive)` call
`gmailService.archiveEmail` and push `'Arquivado'`. -/
def archiveStep (env : Env) (email : GmailMessage) (rule : Rule) :
    Except (List Effect) ActionStageResult :=
  if (rule.actions.map fun a => a.archive).getD false then
    if env.archiveThrows then .error [Effect.archiveEmail email.id]
    else .ok { effects := [Effect.archiveEmail email.id], actions := ["Arquivado"] }
  else .ok { effects := [], actions := [] }

/-- ruleEngine.ts:122-125: `if (rule.actions?.applyLabel)` call
`gmailService.applyLabel` and push the label description. -/
def applyLabelStep (env : Env) (email : GmailMessage) (rule : Rule) :
    Except (List Effect) ActionStageResult :=
  match (rule.actions.map fun a => a.applyLabel).getD none with
  | some label =>
    if label ≠ "" then
      if env.applyLabelThrows then .error [Effect.applyLabel email.id label]
      else .ok { effects := [Effect.applyLabel email.id label],
                 actions := ["Label aplicada: " ++ label] }
    else .ok { effects := [], actions := [] }
  | none => .ok { effects := [], actions := [] }

/-- The three inbox-mutation blocks of `applyRuleActions`
(ruleEngine.ts:109-125) in program order; a rejection anywhere aborts to the
outer catch. -/
def inboxActionsStage (env : Env) (email : GmailMessage) (rule : Rule) :
    Except (List Effect) ActionStageResult :=
  andThenStep (andThenStep (markAsReadStep env email rule) (archiveStep env email rule))
    (applyLabelStep env email rule)

/-- Effects, pushed action strings, sent flag and recorded error of one
notification channel. -/
structure ChannelStageResult where
  effects : List Effect
  actions : List String
  sent : Bool
  error : Option String
deriving DecidableEq

/-- The email-notification block of `applyRuleActions`
(ruleEngine.ts:128-155): guarded by a JS-truthy `rule.notificationEmail`;
the send's rejection or failure result is caught and recorded in
`emailError` (with the source's fallback messages), success sets
`emailSent`. -/
def emailNotificationStage (env : Env) (rule : Rule) : ChannelStageResult :=
  if rule.notificationEmail ≠ "" then
    match env.sendEmailOutcome with
    | .error msg =>
      { effects := [Effect.sendEmail rule.notificationEmail], actions := [],
        sent := false, error := some (jsOrStr msg ("Erro ao enviar notificação")) }
    | .ok result =>
      if result.success then
        { effects := [Effect.sendEmail rule.notificationEmail],
          actions := ["Email enviado para " ++ rule.notificationEmail],
          sent := true, error := none }
      else
        { effects := [Effect.sendEmail rule.notificationEmail], actions := [],
          sent := false,
          error := some (jsOrStr (result.error.getD ("")) ("Falha ao enviar email")) }
  else { effects := [], actions := [], sent := false, error := none }

/-- The WhatsApp-notification block of `applyRuleActions`
(ruleEngine.ts:158-181): guarded by a JS-truthy `rule.whatsappNumber`;
skipped silently when the `whatsapp_instances` lookup yields no truthy
instance name; a rejection of the send is caught and recorded in
`whatsAppError`, a resolution sets `whatsAppSent`. -/
def whatsappNotificationStage (env : Env) (rule : Rule) : ChannelStageResult :=
  if rule.whatsappNumber ≠ "" then
    match env.instanceName with
    | some instanceName =>
      if instanceName ≠ "" then
        match env.sendWhatsAppThrows with
        | some errMsg =>
          { effects := [Effect.sendWhatsApp instanceName rule.whatsappNumber],
            actions := [], sent := false,
            error := some (jsOrStr errMsg ("Erro Evolution API")) }
        | none =>
          { effects := [Effect.sendWhatsApp instanceName rule.whatsappNumber],
            actions := ["WhatsApp enviado para " ++ rule.whatsappNumber],
            sent := true, error := none }
      else { effects := [], actions := [], sent := false, error := none }
    | none => { effects := [], actions := [], sent := false, error := none }
  else { effects := [], actions := [], sent := false, error := none }

/-- The centralized `notificationService.addNotification` record of
ruleEngine.ts:184-189: one combined row whose recipient joins the email
address and the `WA:`-prefixed WhatsApp number. -/
def notificationRecordFor (rule : Rule) (emailSent whatsAppSent : Bool)
    (emailError whatsAppError : Option String) : NotificationRecord :=
  { status := if emailSent || whatsAppSent then ("sent") else ("failed")
    ruleName := rule.name
    recipient := String.intercalate (", ")
      (([rule.notificationEmail,
         if rule.whatsappNumber ≠ "" then ("WA:" ++ rule.whatsappNumber) else ("")]).filter
        fun s => s ≠ "")
    error := jsOrOpt emailError whatsAppError }

/-- The `logService.addLog` entry of ruleEngine.ts:191-196. -/
def ruleMatchLogFor (rule : Rule) (email : GmailMessage) (actions : List String)
    (emailSent whatsAppSent : Bool) : LogEntry :=
  { type := "RuleMatch"
    title := "Regra \"" ++ (rule.name ++ "\" aplicada")
    description := "Email: \"" ++ (email.subject ++ ("\". Ações: " ++ String.intercalate (", ") actions))
    status := if emailSent || whatsAppSent then ("success") else ("error") }

/-- The error log written by the outer catch of `applyRuleActions`
(ruleEngine.ts:213-218). -/
def errorLogFor (rule : Rule) (email : GmailMessage) : LogEntry :=
  { type := "RuleMatch"
    title := "Erro ao aplicar regra \"" ++ (rule.name ++ "\"")
    description := "Falha ao processar email: \"" ++ (email.subject ++ "\"")
    status := "error" }

/-- `ruleEngine.applyRuleActions` (ruleEngine.ts:81-222).  Returns the
function's boolean result together with the trace of externally visible
calls: dedup check first (an existing marker returns `true` with no
effects); then the authenticated-user check (`null` user throws to the
catch); then inbox actions, the two notification channels, the combined
notification record, the activity log, and — only when a channel succeeded —
the `processed_emails` marker insert. -/
def applyRuleActions (env : Env) (email : GmailMessage) (rule : Rule)
    (criteria : List String := []) : Bool × List Effect :=
  if dedupHit env email rule then
    (true, [])
  else
    match env.currentUserId with
    | none => (false, [Effect.addLog (errorLogFor rule email)])
    | some currentUserId =>
      match inboxActionsStage env email rule with
      | .error effs => (false, effs ++ [Effect.addLog (errorLogFor rule email)])
      | .ok inboxRes =>
        let emailRes := emailNotificationStage env rule
        let waRes := whatsappNotificationStage env rule
        let actions := inboxRes.actions ++ (emailRes.actions ++ waRes.actions)
        let effects := inboxRes.effects ++ (emailRes.effects ++ (waRes.effects ++
          ([Effect.addNotification
              (notificationRecordFor rule emailRes.sent waRes.sent emailRes.error waRes.error)] ++
           [Effect.addLog (ruleMatchLogFor rule email actions emailRes.sent waRes.sent)])))
        if emailRes.sent || waRes.sent then
          (true, effects ++ [Effect.insertProcessedMarker currentUserId email.id rule.id])
        else
          (true, effects)

/-- "The email send succeeded": the channel is configured and
`gmailService.sendEmail` resolved with `success`. -/
def emailChannelSucceeded (env : Env) (rule : Rule) : Bool :=
  rule.notificationEmail ≠ "" &&
    (match env.sendEmailOutcome with
     | .ok r => r.success
     | .error _ => false)

/-- "The WhatsApp send succeeded": the channel is configured, an instance
name was found, and `whatsappService.sendTextMessage` resolved. -/
def whatsappChannelSucceeded (env : Env) (rule : Rule) : Bool :=
  rule.whatsappNumber ≠ "" &&
    (match env.instanceName with
     | some inst => inst ≠ "" && env.sendWhatsAppThrows.isNone
     | none => false)

/-! ## Orchestrator: `ruleService.fetchRules` and `ruleEngine.processEmails` -/

/-- `ruleService.fetchRules` (ruleService.ts:6-28): a failed Supabase query
is logged to the console and yields an empty list — the error is swallowed,
not thrown.  The per-row field renaming of the source is elided since it
does not affect any claim. -/
def fetchRules (outcome : Except String (List Rule)) : List Rule :=
  match outcome with
  | .error _ => []
  | .ok rules => rules

/-- Environment of one `processEmails` run: the outcome of the rule fetch
and the per-(message, rule) environment for `applyRuleActions`. -/
structure ProcessEnv where
  fetchRulesOutcome : Except String (List Rule)
  pairEnv : GmailMessage → Rule → Env

/-- Element of the list returned by `processEmails` (ruleEngine.ts:9-13). -/
structure RuleMatch where
  rule : Rule
  email : GmailMessage
  matchedCriteria : List String
deriving DecidableEq

/-- One iteration of the inner loop of `processEmails`
(ruleEngine.ts:242-254): match, record the match, apply the actions. -/
def processPair (penv : ProcessEnv) (acc : List RuleMatch × List Effect)
    (email : GmailMessage) (rule : Rule) : List RuleMatch × List Effect :=
  let result := matchesRule email rule
  if result.isMatch then
    (acc.1 ++ [{ rule := rule, email := email, matchedCriteria := result.criteria }],
     acc.2 ++ (applyRuleActions (penv.pairEnv email rule) email rule result.criteria).2)
  else acc

/-- `ruleEngine.processEmails` (ruleEngine.ts:227-267): fetch rules, keep the
ACTIVE ones, return early on an empty active list, otherwise iterate
messages × rules.  The returned matches and the trace of effects performed
by the `applyRuleActions` calls. -/
def processEmails (penv : ProcessEnv) (emails : List GmailMessage) :
    List RuleMatch × List Effect :=
  let rules := fetchRules penv.fetchRulesOutcome
  let activeRules := rules.filter fun r => r.status == RuleStatus.ACTIVE
  if activeRules.length = 0 then ([], [])
  else
    emails.foldl
      (fun acc email => activeRules.foldl (fun acc2 rule => processPair penv acc2 email rule) acc)
      ([], [])

/-! ## Email monitor: `src/lib/emailMonitor.ts` -/

/-- `MAX_STORED_IDS` (emailMonitor.ts:7). -/
def MAX_STORED_IDS : Nat := 500

/-- `saveProcessedIds` (emailMonitor.ts:47-56): `Array.from(ids).slice(-500)`
keeps only the last `MAX_STORED_IDS` entries of the insertion-ordered id
set before persisting. -/
def saveProcessedIds (ids : List String) : List String :=
  ids.drop (ids.length - MAX_STORED_IDS)

/-- JS `Set.prototype.add` on an insertion-ordered id set: an id already
present keeps its original position. -/
def setAdd (ids : List String) (id : String) : List String :=
  if ids.contains id then ids else ids ++ [id]

/-- `markAsProcessed` (emailMonitor.ts:61-65): add every email's id to the
stored set, then persist with `saveProcessedIds`. -/
def markAsProcessed (stored : List String) (emails : List GmailMessage) : List String :=
  saveProcessedIds (emails.foldl (fun s e => setAdd s e.id) stored)

/-- `getUnprocessedEmails` (emailMonitor.ts:70-73). -/
def getUnprocessedEmails (stored : List String) (emails : List GmailMessage) :
    List GmailMessage :=
  emails.filter fun e => !stored.contains e.id

/-- Observable outcome of one `checkAndProcess` run: the persisted id list
afterwards and the returned `{processed, matched}` counters. -/
structure MonitorRunResult where
  stored : List String
  processed : Nat
  matched : Nat
deriving DecidableEq

/-- `checkAndProcess` (emailMonitor.ts:78-135): connection check, fetch,
early return when nothing was fetched or everything was already processed,
otherwise process the unprocessed emails and mark ALL fetched emails as
processed. -/
def checkAndProcess (connected : Bool) (penv : ProcessEnv)
    (fetchedEmails : List GmailMessage) (stored : List String) : MonitorRunResult :=
  if !connected then { stored := stored, processed := 0, matched := 0 }
  else if fetchedEmails.length = 0 then { stored := stored, processed := 0, matched := 0 }
  else
    let unprocessedEmails := getUnprocessedEmails stored fetchedEmails
    if unprocessedEmails.length = 0 then { stored := stored, processed := 0, matched := 0 }
    else
      let ruleMatches := (processEmails penv unprocessedEmails).1
      { stored := markAsProcessed stored fetchedEmails
        processed := unprocessedEmails.length
        matched := ruleMatches.length }

/-! ## Helper lemmas about the matcher -/

theorem subjectCriterion_ne_senderCriterion (r r' : Rule) :
    subjectCriterion r ≠ senderCriterion r' := by
  intro h
  have h2 := congrArg String.data h
  rw [subjectCriterion, senderCriterion] at h2
  simp only [String.data_append] at h2
  simp at h2

theorem subjectCriterion_ne_keywordsCriterion (r : Rule) (l : List String) :
    subjectCriterion r ≠ keywordsCriterion l := by
  intro h
  have h2 := congrArg String.data h
  rw [subjectCriterion, keywordsCriterion] at h2
  simp only [String.data_append] at h2
  simp at h2

/-- The subject criterion appears in the criteria list exactly when the
subject filter is configured and the subject test succeeds. -/
theorem subjectCriterion_mem_criteria (email : GmailMessage) (rule : Rule)
    (hf : rule.subjectFilter ≠ "") :
    (subjectCriterion rule ∈ (matchesRule email rule).criteria ↔
      subjectMatchB email rule = true) := by
  unfold matchesRule
  split_ifs <;>
    simp_all [subjectCriterion_ne_senderCriterion, subjectCriterion_ne_keywordsCriterion]

/-! ## Claim theorems about the matcher -/

/-- C4: `matchesRule` has OR semantics across the configured filter
categories: the rule matches iff at least one configured category's test
succeeds. -/
theorem matchesRule_or_semantics (email : GmailMessage) (rule : Rule) :
    ((matchesRule email rule).isMatch = true ↔
      ((rule.subjectFilter ≠ "" ∧ subjectMatchB email rule = true) ∨
       (rule.senderFilter ≠ "" ∧ senderMatchB email rule = true) ∨
       (rule.keywords ≠ [] ∧ matchedKeywords email rule ≠ []))) := by
  by_cases hs : rule.subjectFilter = "" <;>
  by_cases he : rule.senderFilter = "" <;>
  by_cases hk : rule.keywords = [] <;>
  cases hsm : subjectMatchB email rule <;>
  cases hem : senderMatchB email rule <;>
  by_cases hkm : matchedKeywords email rule = [] <;>
    simp_all [matchesRule, List.length_pos, List.length_eq_zero]

/-- C4 witness inputs: a message whose sender matches while its subject does
not, against a rule configuring both filters. -/
def orEmail : GmailMessage :=
  { id := "w4", subject := "Invoice 77", fromAddr := "billing@vendor.com", snippet := "pay" }

/-- C4 witness rule with both a subject filter and a sender filter. -/
def orRule : Rule :=
  { id := "rw4", name := "Both", subjectFilter := "nomatch",
    condition := RuleCondition.CONTAINS, senderFilter := "vendor.com" }

/-- C4 witness: the OR-semantics theorem applied at a concrete message and
rule. -/
theorem matchesRule_or_semantics_witness :
    ((matchesRule orEmail orRule).isMatch = true ↔
      ((orRule.subjectFilter ≠ "" ∧ subjectMatchB orEmail orRule = true) ∨
       (orRule.senderFilter ≠ "" ∧ senderMatchB orEmail orRule = true) ∨
       (orRule.keywords ≠ [] ∧ matchedKeywords orEmail orRule ≠ []))) :=
  matchesRule_or_semantics orEmail orRule

/-- C3 counterexample input: a message and a rule with `condition = ALWAYS`
and no subjectFilter, senderFilter or keywords. -/
def alwaysEmail : GmailMessage :=
  { id := "m1", subject := "Hello", fromAddr := "alice@example.com", snippet :=  "Hi there" }

/-- C3 counterexample rule. -/
def alwaysRule : Rule :=
  { id := "r1", name := "Catch all", subjectFilter := "", condition := RuleCondition.ALWAYS }

/-- C3 counterexample: a rule with `condition = ALWAYS` and no
subjectFilter / senderFilter / keywords does NOT match: since the subject
branch is guarded by a JS-truthy `subjectFilter`, no criterion is ever
pushed and `isMatch` is `false`, not `true` as claimed. -/
theorem matchesRule_always_counterexample :
    alwaysRule.condition = RuleCondition.ALWAYS ∧ alwaysRule.subjectFilter = "" ∧
    alwaysRule.senderFilter = "" ∧ alwaysRule.keywords = [] ∧
    (matchesRule alwaysEmail alwaysRule).isMatch = false := by
  refine ⟨rfl, rfl, rfl, rfl, ?_⟩
  decide

/-- C3 (amended): the ALWAYS condition is honored only inside the
subject-filter branch: a rule with `condition = ALWAYS` and no configured
subjectFilter, senderFilter or keywords matches no message, while a rule
with `condition = ALWAYS` and a non-empty subjectFilter matches every
message. -/
theorem matchesRule_always_amended (email : GmailMessage) (rule : Rule)
    (hc : rule.condition = RuleCondition.ALWAYS) :
    ((rule.subjectFilter = "" ∧ rule.senderFilter = "" ∧ rule.keywords = []) →
      (matchesRule email rule).isMatch = false) ∧
    (rule.subjectFilter ≠ "" → (matchesRule email rule).isMatch = true) := by
  constructor
  · rintro ⟨h1, h2, h3⟩
    simp [matchesRule, h1, h2, h3]
  · intro h1
    have hsm : subjectMatchB email rule = true := by
      unfold subjectMatchB
      rw [hc]
      simp [RuleCondition.ALWAYS, RuleCondition.EXACT, RuleCondition.STARTS_WITH,
        RuleCondition.ENDS_WITH]
    simp [matchesRule, h1, hsm]

/-- C3 witness: the amended theorem applied at concrete inputs. -/
theorem matchesRule_always_amended_witness :
    alwaysRule.condition = RuleCondition.ALWAYS ∧
    (((alwaysRule.subjectFilter = "" ∧ alwaysRule.senderFilter = "" ∧ alwaysRule.keywords = []) →
        (matchesRule alwaysEmail alwaysRule).isMatch = false) ∧
      (alwaysRule.subjectFilter ≠ "" → (matchesRule alwaysEmail alwaysRule).isMatch = true)) :=
  ⟨rfl, matchesRule_always_amended alwaysEmail alwaysRule rfl⟩

/-- C6: with a non-empty subjectFilter and `condition = EXACT`, the subject
criterion is reported iff the lower-cased subject equals the lower-cased
filter exactly. -/
theorem matchesRule_exact_subject (email : GmailMessage) (rule : Rule)
    (hf : rule.subjectFilter ≠ "") (hc : rule.condition = RuleCondition.EXACT) :
    (subjectCriterion rule ∈ (matchesRule email rule).criteria ↔
      email.subject.toLower = rule.subjectFilter.toLower) := by
  rw [subjectCriterion_mem_criteria email rule hf]
  unfold subjectMatchB
  rw [hc]
  simp

/-- C6 witness input rule. -/
def exactRule : Rule :=
  { id := "r2", name := "Invoice exact", subjectFilter := "Invoice",
    condition := RuleCondition.EXACT }

/-- C6 witness: the EXACT theorem applied at a concrete message and rule. -/
theorem matchesRule_exact_subject_witness :
    exactRule.subjectFilter ≠ "" ∧ exactRule.condition = RuleCondition.EXACT ∧
    (subjectCriterion exactRule ∈ (matchesRule alwaysEmail exactRule).criteria ↔
      alwaysEmail.subject.toLower = exactRule.subjectFilter.toLower) :=
  ⟨by decide, rfl, matchesRule_exact_subject alwaysEmail exactRule (by decide) rfl⟩

/-- C7: with a non-empty subjectFilter and a condition string that is none
of the five recognized enum values, the subject test degrades to the
case-insensitive CONTAINS (substring) test of the switch's default case. -/
theorem matchesRule_unrecognized_condition (email : GmailMessage) (rule : Rule)
    (hf : rule.subjectFilter ≠ "")
    (h1 : rule.condition ≠ RuleCondition.EXACT)
    (h2 : rule.condition ≠ RuleCondition.STARTS_WITH)
    (h3 : rule.condition ≠ RuleCondition.ENDS_WITH)
    (h4 : rule.condition ≠ RuleCondition.ALWAYS)
    (h5 : rule.condition ≠ RuleCondition.CONTAINS) :
    (subjectCriterion rule ∈ (matchesRule email rule).criteria ↔
      strIncludes email.subject.toLower rule.subjectFilter.toLower = true) := by
  rw [subjectCriterion_mem_criteria email rule hf]
  unfold subjectMatchB
  simp [h1, h2, h3, h4]

/-- C7 witness input rule: the `HAS_ATTACHMENT` enum value, which the
switch does not recognize. -/
def attachmentRule : Rule :=
  { id := "r3", name := "Attachment", subjectFilter := "report",
    condition := RuleCondition.HAS_ATTACHMENT }

/-- C7 witness: the fallback theorem applied at a concrete message and
rule. -/
theorem matchesRule_unrecognized_condition_witness :
    attachmentRule.subjectFilter ≠ "" ∧
    attachmentRule.condition ≠ RuleCondition.CONTAINS ∧
    (subjectCriterion attachmentRule ∈ (matchesRule alwaysEmail attachmentRule).criteria ↔
      strIncludes alwaysEmail.subject.toLower attachmentRule.subjectFilter.toLower = true) :=
  ⟨by decide, by decide,
    matchesRule_unrecognized_condition alwaysEmail attachmentRule (by decide) (by decide)
      (by decide) (by decide) (by decide) (by decide)⟩

/-! ## Helper lemmas about `applyRuleActions` -/

theorem dedupHit_eq_true_iff (env : Env) (email : GmailMessage) (rule : Rule) :
    dedupHit env email rule = true ↔ (email.id, rule.id) ∈ env.processed_emails := by
  simp only [dedupHit, List.any_eq_true, Bool.and_eq_true, beq_iff_eq]
  constructor
  · rintro ⟨p, hp, h1, h2⟩
    obtain ⟨p1, p2⟩ := p
    simp only at h1 h2
    subst h1; subst h2; exact hp
  · intro h
    exact ⟨(email.id, rule.id), h, rfl, rfl⟩

/-- All effects of an inbox-action step are inbox mutations (also on the
rejection path). -/
def StepEffectsInbox (x : Except (List Effect) ActionStageResult) : Prop :=
  match x with
  | .error effs => ∀ e ∈ effs, e.isInboxActionB = true
  | .ok r => ∀ e ∈ r.effects, e.isInboxActionB = true

theorem andThenStep_inbox {a b : Except (List Effect) ActionStageResult}
    (ha : StepEffectsInbox a) (hb : StepEffectsInbox b) :
    StepEffectsInbox (andThenStep a b) := by
  cases a with
  | error effs => exact ha
  | ok r =>
    cases b with
    | error effs2 =>
      intro e he
      rcases List.mem_append.mp he with h | h
      · exact ha e h
      · exact hb e h
    | ok r2 =>
      intro e he
      rcases List.mem_append.mp he with h | h
      · exact ha e h
      · exact hb e h

theorem markAsReadStep_inbox (env : Env) (email : GmailMessage) (rule : Rule) :
    StepEffectsInbox (markAsReadStep env email rule) := by
  unfold markAsReadStep
  split_ifs <;> simp [StepEffectsInbox, Effect.isInboxActionB]

theorem archiveStep_inbox (env : Env) (email : GmailMessage) (rule : Rule) :
    StepEffectsInbox (archiveStep env email rule) := by
  unfold archiveStep
  split_ifs <;> simp [StepEffectsInbox, Effect.isInboxActionB]

theorem applyLabelStep_inbox (env : Env) (email : GmailMessage) (rule : Rule) :
    StepEffectsInbox (applyLabelStep env email rule) := by
  unfold applyLabelStep
  cases (rule.actions.map fun a => a.applyLabel).getD none with
  | none => simp [StepEffectsInbox]
  | some label =>
    by_cases hl : label = "" <;> by_cases ht : env.applyLabelThrows <;>
      simp [StepEffectsInbox, Effect.isInboxActionB, hl, ht]

theorem inboxActionsStage_inbox (env : Env) (email : GmailMessage) (rule : Rule) :
    StepEffectsInbox (inboxActionsStage env email rule) :=
  andThenStep_inbox
    (andThenStep_inbox (markAsReadStep_inbox env email rule) (archiveStep_inbox env email rule))
    (applyLabelStep_inbox env email rule)

theorem emailStage_effects_send (env : Env) (rule : Rule) :
    ∀ e ∈ (emailNotificationStage env rule).effects, e.isSendB = true := by
  intro e he
  by_cases h1 : rule.notificationEmail = ""
  · simp [emailNotificationStage, h1] at he
  · cases h2 : env.sendEmailOutcome with
    | error m =>
      simp [emailNotificationStage, h1, h2] at he
      simp [he, Effect.isSendB]
    | ok r =>
      by_cases h3 : r.success <;>
        · simp [emailNotificationStage, h1, h2, h3] at he
          simp [he, Effect.isSendB]

theorem whatsappStage_effects_send (env : Env) (rule : Rule) :
    ∀ e ∈ (whatsappNotificationStage env rule).effects, e.isSendB = true := by
  intro e he
  by_cases h1 : rule.whatsappNumber = ""
  · simp [whatsappNotificationStage, h1] at he
  · cases h2 : env.instanceName with
    | none => simp [whatsappNotificationStage, h1, h2] at he
    | some inst =>
      by_cases h3 : inst = ""
      · simp [whatsappNotificationStage, h1, h2, h3] at he
      · cases h4 : env.sendWhatsAppThrows with
        | some m =>
          simp [whatsappNotificationStage, h1, h2, h3, h4] at he
          simp [he, Effect.isSendB]
        | none =>
          simp [whatsappNotificationStage, h1, h2, h3, h4] at he
          simp [he, Effect.isSendB]

/-- The email channel's `sent` flag equals "the email send succeeded". -/
theorem emailStage_sent (env : Env) (rule : Rule) :
    (emailNotificationStage env rule).sent = emailChannelSucceeded env rule := by
  by_cases h1 : rule.notificationEmail = ""
  · simp [emailNotificationStage, emailChannelSucceeded, h1]
  · cases h2 : env.sendEmailOutcome with
    | error m => simp [emailNotificationStage, emailChannelSucceeded, h1, h2]
    | ok r =>
      by_cases h3 : r.success <;>
        simp [emailNotificationStage, emailChannelSucceeded, h1, h2, h3]

/-- The WhatsApp channel's `sent` flag equals "the WhatsApp send
succeeded". -/
theorem whatsappStage_sent (env : Env) (rule : Rule) :
    (whatsappNotificationStage env rule).sent = whatsappChannelSucceeded env rule := by
  by_cases h1 : rule.whatsappNumber = ""
  · simp [whatsappNotificationStage, whatsappChannelSucceeded, h1]
  · cases h2 : env.instanceName with
    | none => simp [whatsappNotificationStage, whatsappChannelSucceeded, h1, h2]
    | some inst =>
      by_cases h3 : inst = ""
      · simp [whatsappNotificationStage, whatsappChannelSucceeded, h1, h2, h3]
      · cases h4 : env.sendWhatsAppThrows <;>
          simp [whatsappNotificationStage, whatsappChannelSucceeded, h1, h2, h3, h4]

/-- No marker insert occurs among the effects of the inbox, email, WhatsApp,
notification-record and activity-log stages of a normal run. -/
theorem marker_not_in_stage_effects (env : Env) (email : GmailMessage) (rule : Rule)
    (inboxRes : ActionStageResult) (hibx : inboxActionsStage env email rule = .ok inboxRes)
    (uid mid rid : String) (n : NotificationRecord) (lg : LogEntry) :
    Effect.insertProcessedMarker uid mid rid ∉
      inboxRes.effects ++ ((emailNotificationStage env rule).effects ++
        ((whatsappNotificationStage env rule).effects ++
          ([Effect.addNotification n] ++ [Effect.addLog lg]))) := by
  intro hmem
  rcases List.mem_append.mp hmem with h | h
  · have hall := inboxActionsStage_inbox env email rule
    rw [hibx] at hall
    have hk := hall _ h
    simp [Effect.isInboxActionB] at hk
  · rcases List.mem_append.mp h with h | h
    · have hk := emailStage_effects_send env rule _ h
      simp [Effect.isSendB] at hk
    · rcases List.mem_append.mp h with h | h
      · have hk := whatsappStage_effects_send env rule _ h
        simp [Effect.isSendB] at hk
      · simp at h

theorem send_not_record {e : Effect} (h : e.isSendB = true) :
    e.isAddNotificationB = false ∧ e.isAddLogB = false := by
  cases e <;> simp_all [Effect.isSendB, Effect.isAddNotificationB, Effect.isAddLogB]

theorem inbox_not_record {e : Effect} (h : e.isInboxActionB = true) :
    e.isAddNotificationB = false ∧ e.isAddLogB = false := by
  cases e <;> simp_all [Effect.isInboxActionB, Effect.isAddNotificationB, Effect.isAddLogB]

/-- Characterization of `applyRuleActions` on the normal path: dedup miss,
authenticated user, no inbox-action rejection. -/
theorem applyRuleActions_normal (env : Env) (email : GmailMessage) (rule : Rule)
    (criteria : List String) (uid : String) (inboxRes : ActionStageResult)
    (hd : dedupHit env email rule = false)
    (huid : env.currentUserId = some uid)
    (hibx : inboxActionsStage env email rule = .ok inboxRes) :
    applyRuleActions env email rule criteria =
      (let emailRes := emailNotificationStage env rule
       let waRes := whatsappNotificationStage env rule
       let actions := inboxRes.actions ++ (emailRes.actions ++ waRes.actions)
       let effects := inboxRes.effects ++ (emailRes.effects ++ (waRes.effects ++
         ([Effect.addNotification
             (notificationRecordFor rule emailRes.sent waRes.sent emailRes.error waRes.error)] ++
          [Effect.addLog (ruleMatchLogFor rule email actions emailRes.sent waRes.sent)])))
       if emailRes.sent || waRes.sent then
         (true, effects ++ [Effect.insertProcessedMarker uid email.id rule.id])
       else (true, effects)) := by
  unfold applyRuleActions
  rw [hd, huid, hibx]
  simp

/-- On the error path of the inbox actions the function returns `false`. -/
theorem applyRuleActions_inbox_error (env : Env) (email : GmailMessage) (rule : Rule)
    (criteria : List String) (uid : String) (effs : List Effect)
    (hd : dedupHit env email rule = false)
    (huid : env.currentUserId = some uid)
    (hibx : inboxActionsStage env email rule = .error effs) :
    applyRuleActions env email rule criteria =
      (false, effs ++ [Effect.addLog (errorLogFor rule email)]) := by
  unfold applyRuleActions
  rw [hd, huid, hibx]
  simp

/-! ## Claim theorems about `applyRuleActions` -/

/-- C1: when a processed marker for (message.id, rule.id) already exists in
the dedup store, `applyRuleActions` returns `true` ("already handled")
immediately with an empty effect trace: no inbox action, no email or
WhatsApp send, no NotificationRecord insert, no ActivityLog entry, and no
new marker. -/
theorem applyRuleActions_idempotent (env : Env) (email : GmailMessage) (rule : Rule)
    (criteria : List String)
    (h : (email.id, rule.id) ∈ env.processed_emails) :
    applyRuleActions env email rule criteria = (true, []) := by
  have hd : dedupHit env email rule = true := (dedupHit_eq_true_iff env email rule).mpr h
  unfold applyRuleActions
  rw [hd]
  simp

/-- C1 witness environment: the dedup store already holds the marker. -/
def processedEnv : Env :=
  { processed_emails := [("m1", "r2")], currentUserId := some ("user-1") }

/-- C1 witness: the idempotence theorem applied to a concrete message, rule
and environment. -/
theorem applyRuleActions_idempotent_witness :
    (alwaysEmail.id, exactRule.id) ∈ processedEnv.processed_emails ∧
    applyRuleActions processedEnv alwaysEmail exactRule [] = (true, []) :=
  ⟨by decide, applyRuleActions_idempotent processedEnv alwaysEmail exactRule [] (by decide)⟩

/-- C5: for a previously unprocessed pair and a normally completing run, the
`processed_emails` marker is inserted if and only if the email send
succeeded or the WhatsApp send succeeded. -/
theorem applyRuleActions_marker_iff (env : Env) (email : GmailMessage) (rule : Rule)
    (criteria : List String) (uid : String)
    (hnp : (email.id, rule.id) ∉ env.processed_emails)
    (huid : env.currentUserId = some uid)
    (hok : (applyRuleActions env email rule criteria).1 = true) :
    (Effect.insertProcessedMarker uid email.id rule.id ∈
        (applyRuleActions env email rule criteria).2 ↔
      (emailChannelSucceeded env rule = true ∨ whatsappChannelSucceeded env rule = true)) := by
  have hd : dedupHit env email rule = false := by
    rw [Bool.eq_false_iff]
    intro hx
    exact hnp ((dedupHit_eq_true_iff env email rule).mp hx)
  cases hibx : inboxActionsStage env email rule with
  | error effs =>
    rw [applyRuleActions_inbox_error env email rule criteria uid effs hd huid hibx] at hok
    simp at hok
  | ok inboxRes =>
    rw [applyRuleActions_normal env email rule criteria uid inboxRes hd huid hibx]
    rw [← emailStage_sent, ← whatsappStage_sent]
    cases hsent : ((emailNotificationStage env rule).sent || (whatsappNotificationStage env rule).sent) with
    | true =>
      simp only [hsent, if_true]
      constructor
      · intro _
        rcases Bool.or_eq_true_iff.mp hsent with h | h
        · exact Or.inl h
        · exact Or.inr h
      · intro _
        simp
    | false =>
      simp only [hsent, Bool.false_eq_true, if_false]
      constructor
      · intro hmem
        exact absurd hmem
          (marker_not_in_stage_effects env email rule inboxRes hibx uid email.id rule.id _ _)
      · intro hor
        rcases hor with h | h <;> simp [h] at hsent

/-- C5 witness environment: no prior marker, authenticated user, email send
succeeds, WhatsApp configured without a connected instance. -/
def freshEnv : Env :=
  { processed_emails := [], currentUserId := some ("user-1"),
    sendEmailOutcome := .ok { success := true, error := none },
    instanceName := some ("inst-1") }

/-- C2 / C5 witness rule: one email recipient and one WhatsApp recipient. -/
def fanoutRule : Rule :=
  { id := "r4", name := "Fanout", subjectFilter := "invoice",
    condition := RuleCondition.CONTAINS,
    notificationEmail := "alerts@me.com", whatsappNumber := "5511999999999" }

/-- C5 witness: the marker-policy theorem applied at concrete inputs. -/
theorem applyRuleActions_marker_iff_witness :
    (alwaysEmail.id, fanoutRule.id) ∉ freshEnv.processed_emails ∧
    (applyRuleActions freshEnv alwaysEmail fanoutRule []).1 = true ∧
    (Effect.insertProcessedMarker ("user-1") alwaysEmail.id fanoutRule.id ∈
        (applyRuleActions freshEnv alwaysEmail fanoutRule []).2 ↔
      (emailChannelSucceeded freshEnv fanoutRule = true ∨
        whatsappChannelSucceeded freshEnv fanoutRule = true)) :=
  ⟨by decide, by decide,
    applyRuleActions_marker_iff freshEnv alwaysEmail fanoutRule [] ("user-1") (by decide) rfl
      (by decide)⟩

/-- C2 counterexample message. -/
def fanoutEmail : GmailMessage :=
  { id := "m9", subject := "Invoice 77 due", fromAddr := "billing@vendor.com",
    snippet := "please pay" }

/-- C2 counterexample rule: one email recipient and one WhatsApp recipient
(N = 1, M = 1), with `condition = ALWAYS` and a non-empty `subjectFilter`,
so the subject branch's ALWAYS case fires and the rule matches every
message (the behavior proved in the C3 amended theorem). -/
def fanoutMatchRule : Rule :=
  { id := "r9", name := "Fanout match", subjectFilter := "invoice",
    condition := RuleCondition.ALWAYS,
    notificationEmail := "alerts@me.com", whatsappNumber := "5511999999999" }

/-- C2 counterexample: a rule with one configured email recipient and one
configured WhatsApp recipient (N = 1, M = 1) that MATCHES the message
(`isMatch = true` is part of the statement), whose match is then processed
with both sends succeeding, produces exactly ONE NotificationRecord
insert — the single combined record of ruleEngine.ts:184-189 — not
N+M = 2. -/
theorem applyRuleActions_fanout_counterexample :
    fanoutMatchRule.notificationEmail ≠ "" ∧ fanoutMatchRule.whatsappNumber ≠ "" ∧
    (matchesRule fanoutEmail fanoutMatchRule).isMatch = true ∧
    (applyRuleActions freshEnv fanoutEmail fanoutMatchRule
        (matchesRule fanoutEmail fanoutMatchRule).criteria).2.countP
        Effect.isAddNotificationB = 1 ∧
    ¬ ((applyRuleActions freshEnv fanoutEmail fanoutMatchRule
        (matchesRule fanoutEmail fanoutMatchRule).criteria).2.countP
        Effect.isAddNotificationB = 2) := by
  refine ⟨by decide, by decide, by decide, by decide, by decide⟩

/-- C2 (amended): a normally completing `applyRuleActions` run on a
previously unprocessed pair inserts exactly one NotificationRecord — a
single combined row covering the email and the WhatsApp channel, however
many of them are configured — and exactly one ActivityLogEntry. -/
theorem applyRuleActions_record_counts (env : Env) (email : GmailMessage) (rule : Rule)
    (criteria : List String) (uid : String)
    (hnp : (email.id, rule.id) ∉ env.processed_emails)
    (huid : env.currentUserId = some uid)
    (hok : (applyRuleActions env email rule criteria).1 = true) :
    ((applyRuleActions env email rule criteria).2.countP Effect.isAddNotificationB = 1 ∧
     (applyRuleActions env email rule criteria).2.countP Effect.isAddLogB = 1) := by
  have hd : dedupHit env email rule = false := by
    rw [Bool.eq_false_iff]
    intro hx
    exact hnp ((dedupHit_eq_true_iff env email rule).mp hx)
  cases hibx : inboxActionsStage env email rule with
  | error effs =>
    rw [applyRuleActions_inbox_error env email rule criteria uid effs hd huid hibx] at hok
    simp at hok
  | ok inboxRes =>
    have hinb : ∀ e ∈ inboxRes.effects, e.isInboxActionB = true := by
      have hall := inboxActionsStage_inbox env email rule
      rw [hibx] at hall
      exact hall
    have hinbN : inboxRes.effects.countP Effect.isAddNotificationB = 0 :=
      List.countP_eq_zero.mpr fun a ha => by simp [(inbox_not_record (hinb a ha)).1]
    have hinbL : inboxRes.effects.countP Effect.isAddLogB = 0 :=
      List.countP_eq_zero.mpr fun a ha => by simp [(inbox_not_record (hinb a ha)).2]
    have hemN : (emailNotificationStage env rule).effects.countP Effect.isAddNotificationB = 0 :=
      List.countP_eq_zero.mpr fun a ha =>
        by simp [(send_not_record (emailStage_effects_send env rule a ha)).1]
    have hemL : (emailNotificationStage env rule).effects.countP Effect.isAddLogB = 0 :=
      List.countP_eq_zero.mpr fun a ha =>
        by simp [(send_not_record (emailStage_effects_send env rule a ha)).2]
    have hwaN : (whatsappNotificationStage env rule).effects.countP Effect.isAddNotificationB = 0 :=
      List.countP_eq_zero.mpr fun a ha =>
        by simp [(send_not_record (whatsappStage_effects_send env rule a ha)).1]
    have hwaL : (whatsappNotificationStage env rule).effects.countP Effect.isAddLogB = 0 :=
      List.countP_eq_zero.mpr fun a ha =>
        by simp [(send_not_record (whatsappStage_effects_send env rule a ha)).2]
    rw [applyRuleActions_normal env email rule criteria uid inboxRes hd huid hibx]
    cases hsent : ((emailNotificationStage env rule).sent || (whatsappNotificationStage env rule).sent) <;>
      simp [hsent, List.countP_append, List.countP_cons, hinbN, hinbL, hemN, hemL, hwaN, hwaL,
        Effect.isAddNotificationB, Effect.isAddLogB]

/-- C2 witness: the amended count theorem applied at concrete inputs. -/
theorem applyRuleActions_record_counts_witness :
    (alwaysEmail.id, fanoutRule.id) ∉ freshEnv.processed_emails ∧
    (applyRuleActions freshEnv alwaysEmail fanoutRule []).1 = true ∧
    ((applyRuleActions freshEnv alwaysEmail fanoutRule []).2.countP
        Effect.isAddNotificationB = 1 ∧
     (applyRuleActions freshEnv alwaysEmail fanoutRule []).2.countP Effect.isAddLogB = 1) :=
  ⟨by decide, by decide,
    applyRuleActions_record_counts freshEnv alwaysEmail fanoutRule [] ("user-1") (by decide) rfl
      (by decide)⟩

/-! ## Claim theorems about the orchestrator run-level failure -/

/-- C8 counterexample environment: the rule-list fetch fails. -/
def failedFetchEnv : ProcessEnv :=
  { fetchRulesOutcome := .error ("Database connection failed"), pairEnv := fun _ _ => freshEnv }

/-- C8 comparison environment: the rule-list fetch succeeds with zero
rules. -/
def emptyRulesEnv : ProcessEnv :=
  { fetchRulesOutcome := .ok [], pairEnv := fun _ _ => freshEnv }

/-- C8 counterexample: when the rule fetch fails, `processEmails` returns a
plain empty-match result `([], [])` — the very value it returns for a
successful run with zero rules, with no error message anywhere in the
result. -/
theorem processEmails_fetch_failure_counterexample :
    processEmails failedFetchEnv [alwaysEmail] = ([], []) ∧
    processEmails failedFetchEnv [alwaysEmail] = processEmails emptyRulesEnv [alwaysEmail] := by
  constructor <;> rfl

/-- C8 (amended): a failed rule-list fetch is swallowed by `fetchRules`
(console log only, empty list returned), so `processEmails` returns the
empty match list and performs no effects — indistinguishable from a
successful run with zero active rules. -/
theorem processEmails_fetch_failure (err : String) (pe : GmailMessage → Rule → Env)
    (emails : List GmailMessage) :
    processEmails { fetchRulesOutcome := .error err, pairEnv := pe } emails = ([], []) := by
  simp [processEmails, fetchRules]

/-- C8 witness: the amended swallow-and-return-empty theorem applied at a
concrete failing fetch. -/
theorem processEmails_fetch_failure_witness :
    processEmails { fetchRulesOutcome := .error ("boom"), pairEnv := fun _ _ => freshEnv }
      [alwaysEmail] = ([], []) :=
  processEmails_fetch_failure ("boom") (fun _ _ => freshEnv) [alwaysEmail]

/-! ## Helper lemmas about the email monitor's processed-ID store -/

theorem mem_setAdd_of_mem {l : List String} {y : String} (x : String) (h : y ∈ l) :
    y ∈ setAdd l x := by
  unfold setAdd
  split_ifs
  · exact h
  · exact List.mem_append_left _ h

theorem mem_setAdd_self (l : List String) (x : String) : x ∈ setAdd l x := by
  unfold setAdd
  split_ifs with hc
  · exact List.elem_iff.mp hc
  · simp

theorem mem_foldl_setAdd (emails : List GmailMessage) (stored : List String) (y : String)
    (h : y ∈ stored ∨ ∃ e ∈ emails, e.id = y) :
    y ∈ emails.foldl (fun s e => setAdd s e.id) stored := by
  induction emails generalizing stored with
  | nil =>
    rcases h with h | ⟨e, he, _⟩
    · exact h
    · cases he
  | cons e es ih =>
    apply ih
    rcases h with h | ⟨e', he', hid⟩
    · exact Or.inl (mem_setAdd_of_mem _ h)
    · rcases List.mem_cons.mp he' with heq | hmem
      · subst heq
        exact Or.inl (hid ▸ mem_setAdd_self stored e'.id)
      · exact Or.inr ⟨e', hmem, hid⟩

theorem length_setAdd_le (l : List String) (x : String) :
    (setAdd l x).length ≤ l.length + 1 := by
  unfold setAdd
  split_ifs <;> simp

theorem length_foldl_setAdd (emails : List GmailMessage) (stored : List String) :
    (emails.foldl (fun s e => setAdd s e.id) stored).length ≤
      stored.length + emails.length := by
  induction emails generalizing stored with
  | nil => simp
  | cons e es ih =>
    have h1 := ih (setAdd stored e.id)
    have h2 := length_setAdd_le stored e.id
    simp only [List.foldl_cons, List.length_cons]
    omega

/-! ## Claim theorems about the email monitor -/

/-- C10: `saveProcessedIds` persists at most `MAX_STORED_IDS = 500` ids, and
what it keeps is exactly the trailing (most recently added) segment of the
insertion-ordered id list — everything older is evicted. -/
theorem saveProcessedIds_bounded (ids : List String) :
    ((saveProcessedIds ids).length ≤ MAX_STORED_IDS ∧
     (saveProcessedIds ids).length = min ids.length MAX_STORED_IDS ∧
     List.take (ids.length - MAX_STORED_IDS) ids ++ saveProcessedIds ids = ids ∧
     MAX_STORED_IDS = 500) := by
  refine ⟨?_, ?_, ?_, rfl⟩
  · simp only [saveProcessedIds, List.length_drop]
    omega
  · simp only [saveProcessedIds, List.length_drop]
    omega
  · simp only [saveProcessedIds, List.take_append_drop]

/-- C10 witness: the bound theorem applied at a concrete id list. -/
theorem saveProcessedIds_bounded_witness :
    ((saveProcessedIds ["a", "b", "c"]).length ≤ MAX_STORED_IDS ∧
     (saveProcessedIds ["a", "b", "c"]).length = min (List.length ["a", "b", "c"]) MAX_STORED_IDS ∧
     List.take (List.length ["a", "b", "c"] - MAX_STORED_IDS) ["a", "b", "c"] ++
        saveProcessedIds ["a", "b", "c"] = ["a", "b", "c"] ∧
     MAX_STORED_IDS = 500) :=
  saveProcessedIds_bounded ["a", "b", "c"]

/-- C9 counterexample store: 500 ids `m0 … m499`, already at the cap. -/
def bigStored : List String := (List.range MAX_STORED_IDS).map fun i => "m" ++ toString i

/-- C9 counterexample: an already-stored email fetched again in this run. -/
def oldEmail : GmailMessage :=
  { id := "m0", subject := "old subject", fromAddr := "old@sender.com", snippet := "old" }

/-- C9 counterexample: a new email that forces the store past the cap. -/
def newEmail : GmailMessage :=
  { id := "fresh", subject := "new subject", fromAddr := "new@sender.com", snippet := "new" }

set_option maxRecDepth 100000 in
/-- C9 counterexample: a successful `checkAndProcess` run that fetched
`oldEmail` (already first in the 500-entry store) and the new `newEmail`
ends with `oldEmail.id` ABSENT from the persisted set: `slice(-500)` evicts
it, so a fetched email's id is not retained and the email becomes eligible
for re-evaluation. -/
theorem checkAndProcess_eviction_counterexample :
    bigStored.contains oldEmail.id = true ∧
    (checkAndProcess true emptyRulesEnv [oldEmail, newEmail] bigStored).processed = 1 ∧
    (checkAndProcess true emptyRulesEnv [oldEmail, newEmail] bigStored).stored.contains
      oldEmail.id = false := by
  refine ⟨by decide, by decide, by decide⟩

/-- C9 (amended): after a `checkAndProcess` run with a connected account,
every fetched email's id is present in the persisted processed-ID set
PROVIDED the merged set stays within the `MAX_STORED_IDS` cap; beyond the
cap, `saveProcessedIds` evicts the oldest entries (see the eviction
counterexample and C10). -/
theorem checkAndProcess_marks_fetched (penv : ProcessEnv)
    (fetched : List GmailMessage) (stored : List String)
    (hbound : stored.length + fetched.length ≤ MAX_STORED_IDS) :
    ∀ e ∈ fetched, e.id ∈ (checkAndProcess true penv fetched stored).stored := by
  intro e he
  unfold checkAndProcess
  simp only [Bool.not_true, Bool.false_eq_true, if_false]
  by_cases h0 : fetched.length = 0
  · rw [List.length_eq_zero] at h0
    subst h0
    cases he
  · simp only [h0, if_false]
    by_cases hup : (getUnprocessedEmails stored fetched).length = 0
    · rw [List.length_eq_zero] at hup
      simp only [hup, List.length_nil, if_true]
      cases hcc : stored.contains e.id with
      | true => exact List.elem_iff.mp hcc
      | false =>
        have hmem2 : e ∈ getUnprocessedEmails stored fetched :=
          List.mem_filter.mpr ⟨he, by rw [hcc]; rfl⟩
        rw [hup] at hmem2
        cases hmem2
    · simp only [hup, if_false]
      unfold markAsProcessed saveProcessedIds
      have hmem : e.id ∈ fetched.foldl (fun s e => setAdd s e.id) stored :=
        mem_foldl_setAdd fetched stored e.id (Or.inr ⟨e, he, rfl⟩)
      have hlen : (fetched.foldl (fun s e => setAdd s e.id) stored).length ≤ MAX_STORED_IDS :=
        le_trans (length_foldl_setAdd fetched stored) hbound
      have hz : (fetched.foldl (fun s e => setAdd s e.id) stored).length - MAX_STORED_IDS = 0 := by
        omega
      rw [hz]
      simpa using hmem

/-- C9 witness: the amended theorem applied at concrete inputs within the
cap. -/
theorem checkAndProcess_marks_fetched_witness :
    (List.length ([] : List String) + List.length [newEmail] ≤ MAX_STORED_IDS) ∧
    newEmail.id ∈ (checkAndProcess true emptyRulesEnv [newEmail] []).stored :=
  ⟨by decide,
    checkAndProcess_marks_fetched emptyRulesEnv [newEmail] [] (by decide) newEmail
      (by decide)⟩

end MailWatch
